import Mathlib

/-!
Verification of the sandboxed script-execution and artifact-extraction
pipeline of the data-to-infographic router (source: `createDataToInfographicRouter`,
POST /execute-python handler).  The TypeScript handler is shallowly embedded:
filesystem and child-process effects become explicit environment inputs, the
sequential control flow becomes a total Lean function, and stateful branch
facts (was cleanup scheduled, did the stderr check fire) are recorded in the
returned outcome record.
-/

/-- Component-wise path prefix / JS-style list prefix test:
`startsList p l` is true when `p` is an initial segment of `l`. -/
def startsList {α : Type} [BEq α] : List α → List α → Bool
  | [], _ => true
  | _ :: _, [] => false
  | a :: as, b :: bs => a == b && startsList as bs

/-- JS `String.prototype.includes` on char lists: `containsSub p l` is true
when `p` occurs contiguously inside `l`. -/
def containsSub {α : Type} [BEq α] (p : List α) : List α → Bool
  | [] => p.isEmpty
  | b :: bs => startsList p (b :: bs) || containsSub p bs

/-- JS `stderr.includes` (case-sensitive substring test) on strings. -/
def strIncludes (needle hay : String) : Bool :=
  containsSub needle.toList hay.toList

/-- JS `String.prototype.startsWith`, computed on the underlying char lists. -/
def strStarts (s p : String) : Bool :=
  startsList p.toList s.toList

/-- JS `String.prototype.endsWith`, computed on the underlying char lists. -/
def strEnds (s p : String) : Bool :=
  startsList p.toList.reverse s.toList.reverse

/-- JS falsiness of an optional string field of `req.body`: an absent field
(`undefined`) and the empty string are both falsy. -/
def falsy : Option String → Bool
  | none => true
  | some s => s == ""

/-- From source line 857: a workspace file counts as a chart artifact when its
name starts with `chart_` and ends with `.png`. -/
def chartFilter (file : String) : Bool :=
  strStarts file "chart_" && strEnds file ".png"

/-- From source line 857:
`fs.readdirSync(jobDir).filter(file => file.startsWith('chart_') && file.endsWith('.png'))`.
The directory listing is passed in as data (Node guarantees no particular
`readdir` order); note the source applies NO sort of any kind to the result. -/
def collectChartFiles (listing : List String) : List String :=
  listing.filter chartFilter

/-- The artifact filename the composed script writes for save index `i`:
`chart_<i>.png` (from the epilogue's `f'chart_{fig_count}.png'`). -/
def chartName (i : Nat) : String :=
  "chart_" ++ Nat.repr i ++ ".png"

/-- An 11-chart workspace listing as a filesystem may return it: in lexical
filename order, where `chart_10.png` sorts between `chart_1.png` and
`chart_2.png`. -/
def lexListing11 : List String :=
  ["chart_0.png", "chart_1.png", "chart_10.png", "chart_2.png", "chart_3.png",
   "chart_4.png", "chart_5.png", "chart_6.png", "chart_7.png", "chart_8.png",
   "chart_9.png"]

/-- From source line 792: `path.join(__dirname, '../../temp')`, modelled as a
component path relative to the server root. -/
def tempDirComponents : List String :=
  ["temp"]

/-- From source line 793: the per-request job identifier
`job_<Date.now()>_<Math.random().toString(36).substr(2, 9)>`.  The two
run-time observations — the millisecond timestamp and the random base-36
suffix — are explicit arguments. -/
def jobId (t : Nat) (r : String) : String :=
  "job_" ++ Nat.repr t ++ "_" ++ r

/-- From source line 794: `path.join(tempDir, jobId)`. -/
def jobDirComponents (jid : String) : List String :=
  tempDirComponents ++ [jid]

/-- From source line 803: `path.join(jobDir, 'data.csv')`. -/
def csvPathComponents (jid : String) : List String :=
  jobDirComponents jid ++ ["data.csv"]

/-- From source line 842: `path.join(jobDir, 'script.py')`. -/
def scriptPathComponents (jid : String) : List String :=
  jobDirComponents jid ++ ["script.py"]

/-- Render a component path the way `path.join` renders it (separator-joined). -/
def pathString (p : List String) : String :=
  String.intercalate "/" p

/-- From source lines 807-839: the `modifiedPythonCode` template — a fixed
prologue (imports, Agg backend, seaborn config, `data = pd.read_csv(csvPath)`),
the verbatim user `pythonCode`, and the fixed save-figures epilogue
(`for i in plt.get_fignums(): … savefig(f'chart_{fig_count}.png') …`).
Apostrophes and the f-string braces of the template are written with
hexadecimal escapes. -/
def modifiedPythonCode (csvPath pythonCode : String) : String :=
  "\nimport pandas as pd\nimport matplotlib.pyplot as plt\nimport seaborn as sns\nimport numpy as np\nimport os\nimport warnings\nwarnings.filterwarnings(\x27ignore\x27)\n\n" ++
  "# Set matplotlib to use Agg backend (non-interactive)\nplt.switch_backend(\x27Agg\x27)\n\n" ++
  "# Configure Seaborn for better visualizations\nsns.set_style(\"whitegrid\")\nsns.set_palette(\"husl\")\nplt.rcParams[\x27figure.figsize\x27] = (10, 6)\nplt.rcParams[\x27font.size\x27] = 12\n\n" ++
  "# Load the data\ndata = pd.read_csv(\x27" ++ csvPath ++ "\x27)\n\n" ++
  pythonCode ++
  "\n\n# Save all current figures\nfig_count = 0\nfor i in plt.get_fignums():\n    fig = plt.figure(i)\n    fig.savefig(f\x27chart_\x7bfig_count\x7d.png\x27, dpi=150, bbox_inches=\x27tight\x27, facecolor=\x27white\x27, edgecolor=\x27none\x27)\n    fig_count += 1\n    plt.close(fig)\n\nprint(f\"Generated \x7bfig_count\x7d charts\")\n"

/-- From source line 849: the stderr check
`if (stderr && !stderr.includes('Warning')) { … throw … }`.
True exactly when the handler throws because of standard-error content. -/
def stderrFails (stderr : String) : Bool :=
  !(stderr == "") && !(strIncludes "Warning" stderr)

/-- The base64 alphabet used by Node's `Buffer.toString('base64')`. -/
def b64Alphabet : List Char :=
  "ABCDEFGHIJKLMNOPQRSTUVWXYZabcdefghijklmnopqrstuvwxyz0123456789+/".toList

/-- Sextet value to base64 character. -/
def b64Char (n : Nat) : Char :=
  b64Alphabet.getD n (Char.ofNat 65)

/-- Standard base64 of a byte list (values < 256), with `=` padding, as
produced by `Buffer.toString('base64')`. -/
def base64Chunks : List Nat → List Char
  | [] => []
  | [a] => [b64Char (a / 4), b64Char (a % 4 * 16), Char.ofNat 61, Char.ofNat 61]
  | [a, b] => [b64Char (a / 4), b64Char (a % 4 * 16 + b / 16), b64Char (b % 16 * 4), Char.ofNat 61]
  | a :: b :: c :: rest =>
      b64Char (a / 4) :: b64Char (a % 4 * 16 + b / 16) ::
      b64Char (b % 16 * 4 + c / 64) :: b64Char (c % 64) :: base64Chunks rest

/-- From source line 864: the data-URI wrapper
`data:image/png;base64,<base64 of the file bytes>`. -/
def dataURI (bytes : List Nat) : String :=
  "data:image/png;base64," ++ String.mk (base64Chunks bytes)

/-- The three response shapes the handler can emit: the 400 of the input
check (line 788), the success JSON (lines 878-883), and the catch-all 500
JSON (lines 887-891). -/
inductive Response where
  | badRequest : String → Response
  | success : List String → Nat → String → String → Response
  | serverError : String → String → String → Response
deriving DecidableEq

/-- From source lines 887-891: every exception reaching the catch block is
reported as the same 500 body, with only `details` varying
(`error` and `suggestion` are fixed literals). -/
def catchResponse (details : String) : Response :=
  Response.serverError "Failed to execute Python code" details
    "Make sure Python is installed with pandas, matplotlib, and seaborn"

/-- A successful filesystem mutation performed by the handler. -/
inductive FsOp where
  | mkdirRec : List String → FsOp
  | writeFile : List String → String → FsOp
deriving DecidableEq

/-- Outcome of one handler run: the HTTP response, the filesystem mutations
in program order, the cleanup timer delay when one was scheduled
(`setTimeout(…, 5000)` at lines 870-876), and whether the stderr check of
line 849 threw. -/
structure HandlerOutcome where
  response : Response
  ops : List FsOp
  cleanupDelayMs : Option Nat
  stderrFlagged : Bool
deriving DecidableEq

/-- Environment of one run: the results of the effectful steps the handler
performs, in program order.  `none` on a write/mkdir field means the call
succeeded; `some msg` means it threw with message `msg`.  `exec` is the
settled promise of `execAsync` (`Except.error` covers spawn failure and
non-zero exit, the two ways the promise rejects); `readdir` is the
workspace listing; `readFile` gives each chart file's bytes. -/
structure Env where
  tempExists : Bool
  mkdirJob : Option String
  writeCsv : Option String
  writeScript : Option String
  exec : Except String (String × String)
  readdir : Except String (List String)
  readFile : String → Except String (List Nat)

/-- Sequential `chartFiles.map(file => … readFileSync … base64 …)` of source
lines 861-867: the first read failure aborts the whole map (throws). -/
def readAll (rf : String → Except String (List Nat)) : List String → Except String (List String)
  | [] => Except.ok []
  | f :: fs =>
      match rf f with
      | Except.error e => Except.error e
      | Except.ok bytes =>
          match readAll rf fs with
          | Except.error e => Except.error e
          | Except.ok rest => Except.ok (dataURI bytes :: rest)

/-- Shallow embedding of the POST /execute-python handler (source lines
784-893).  Control flow is translated branch for branch: the input check
returns 400 before any filesystem step; each later failure jumps to the
catch block (`catchResponse`), which performs no cleanup; the cleanup timer
is scheduled (delay 5000 ms) only after artifact collection succeeds, just
before the success response. -/
def handle (csvData pythonCode : Option String) (t : Nat) (r : String) (env : Env) : HandlerOutcome :=
  if falsy csvData || falsy pythonCode then
    ⟨Response.badRequest "csvData and pythonCode are required", [], none, false⟩
  else
    let cd := csvData.getD ""
    let pc := pythonCode.getD ""
    let jid := jobId t r
    let jdir := jobDirComponents jid
    let ops0 : List FsOp := if env.tempExists then [] else [FsOp.mkdirRec tempDirComponents]
    match env.mkdirJob with
    | some e => ⟨catchResponse e, ops0, none, false⟩
    | none =>
      let ops1 := ops0 ++ [FsOp.mkdirRec jdir]
      match env.writeCsv with
      | some e => ⟨catchResponse e, ops1, none, false⟩
      | none =>
        let ops2 := ops1 ++ [FsOp.writeFile (csvPathComponents jid) cd]
        match env.writeScript with
        | some e => ⟨catchResponse e, ops2, none, false⟩
        | none =>
          let ops3 := ops2 ++
            [FsOp.writeFile (scriptPathComponents jid)
              (modifiedPythonCode (pathString (csvPathComponents jid)) pc)]
          match env.exec with
          | Except.error e => ⟨catchResponse e, ops3, none, false⟩
          | Except.ok (stdout, stderr) =>
            if stderrFails stderr then
              ⟨catchResponse ("Python execution failed: " ++ stderr), ops3, none, true⟩
            else
              match env.readdir with
              | Except.error e => ⟨catchResponse e, ops3, none, false⟩
              | Except.ok listing =>
                match readAll env.readFile (collectChartFiles listing) with
                | Except.error e => ⟨catchResponse e, ops3, none, false⟩
                | Except.ok chartImages =>
                  ⟨Response.success chartImages chartImages.length
                      ("Successfully generated " ++ Nat.repr chartImages.length ++ " charts")
                      stdout,
                    ops3, some 5000, false⟩

/-- From source line 847: `execAsync` is invoked with the command string only,
so no `timeout` option is passed; Node's `child_process.exec` then uses its
documented default `timeout: 0`, under which the child is never killed by
elapsed time. -/
def execCallTimeoutMs : Nat :=
  0

/-- Node `child_process.exec` timeout semantics: the instant (ms) at which the
child is killed by the timeout mechanism, if ever.  `childEndsAt = none`
models a child that never terminates on its own; `timeoutMs = 0` (the
default) disables the kill entirely. -/
def execKillsChildAt (timeoutMs : Nat) (childEndsAt : Option Nat) : Option Nat :=
  if timeoutMs == 0 then none
  else
    match childEndsAt with
    | none => some timeoutMs
    | some tEnd => if timeoutMs < tEnd then some timeoutMs else none

/-- Node `child_process.exec` settlement semantics: the instant (ms) at which
the awaited promise settles (child exit or timeout kill), if ever. -/
def execSettlesAt (timeoutMs : Nat) (childEndsAt : Option Nat) : Option Nat :=
  match childEndsAt with
  | some tEnd => if timeoutMs == 0 then some tEnd else some (min tEnd timeoutMs)
  | none => if timeoutMs == 0 then none else some timeoutMs

/-- From source line 872: `fs.rmSync(jobDir, { recursive: true, force: true })`
on a filesystem modelled as the list of its paths (component lists): the
recursive removal deletes exactly the paths having `target` as a
component-wise prefix (the directory itself and everything under it). -/
def rmSyncRec (fsPaths : List (List String)) (target : List String) : List (List String) :=
  fsPaths.filter (fun p => !(startsList target p))

/-- Insert into an ascending list, keeping it ascending. -/
def insertAsc (n : Nat) : List Nat → List Nat
  | [] => [n]
  | m :: t => if n ≤ m then n :: m :: t else m :: insertAsc n t

/-- Insertion sort into ascending order. -/
def sortAsc : List Nat → List Nat
  | [] => []
  | n :: t => insertAsc n (sortAsc t)

/-- Model of matplotlib's `plt.get_fignums()`: the numbers of the currently
open figures in ascending numeric order (matplotlib keeps the figure registry
sorted by figure number, not by creation time).  The argument lists the open
figures' numbers in creation order. -/
def getFignums (figNums : List Nat) : List Nat :=
  sortAsc figNums

/-- State of the save-figures epilogue loop: the figures still open, the
`(figure number, filename)` saves performed so far in save order, and the
running `fig_count`. -/
structure EpilogueState where
  openFigs : List Nat
  saved : List (Nat × String)
  figCount : Nat
deriving DecidableEq

/-- From source lines 831-836, one iteration per entry of `plt.get_fignums()`:
save the figure numbered `n` to `chart_<fig_count>.png`, increment
`fig_count`, and close the figure. -/
def saveLoop : List Nat → EpilogueState → EpilogueState
  | [], s => s
  | n :: rest, s =>
      saveLoop rest
        ⟨s.openFigs.filter (fun m => !(m == n)),
         s.saved ++ [(n, chartName s.figCount)],
         s.figCount + 1⟩

/-- The whole epilogue, run against the figures open at the end of the user
code (listed in creation order). -/
def runEpilogue (figNums : List Nat) : EpilogueState :=
  saveLoop (getFignums figNums) ⟨figNums, [], 0⟩

/-- Expected save list when saving the given figure numbers in the given
order with `fig_count` starting at `k`. -/
def savedSpec (k : Nat) : List Nat → List (Nat × String)
  | [] => []
  | n :: rest => (n, chartName k) :: savedSpec (k + 1) rest

/-- A string free of the `_` separator character, as every
`Math.random().toString(36).substr(2, 9)` suffix is (base-36 digits only). -/
def noUnderscore (s : String) : Bool :=
  s.toList.all (fun c => !(c == '_'))

/-- Numeric value of a decimal digit string (most significant first), used to
show that the decimal rendering of the `Date.now()` component is injective. -/
def digitsVal (ds : List Char) : Nat :=
  ds.foldl (fun acc c => acc * 10 + (c.toNat - 48)) 0

/-- Claim C1: the claim says `collectArtifacts` returns the N artifacts sorted
by the numeric index embedded in each filename, never degrading to lexical
order when N ≥ 10.  The code applies no sort at all: it keeps the raw
`readdirSync` listing order.  At the failing input — an 11-artifact workspace
whose listing comes back lexically ordered — the code returns all 11 files but
with `chart_10.png` before `chart_2.png`, which is exactly the lexical
degradation the claim rules out (index order would be
`chart_0.png, chart_1.png, chart_2.png, …, chart_10.png`). -/
theorem c1_no_numeric_sort_on_lexical_listing :
    collectChartFiles lexListing11 = lexListing11 ∧
    lexListing11 ≠ (List.range 11).map chartName ∧
    (List.range 11).map chartName =
      ["chart_0.png", "chart_1.png", "chart_2.png", "chart_3.png",
       "chart_4.png", "chart_5.png", "chart_6.png", "chart_7.png",
       "chart_8.png", "chart_9.png", "chart_10.png"] := by
  refine ⟨by decide, by decide, by decide⟩

/-- Claim C2: the claim says workspace cleanup is scheduled on every exit
path.  In the code the `setTimeout(... fs.rmSync(jobDir) ..., 5000)` sits
inside the `try` block after artifact collection, so a rejected `execAsync`
promise (non-zero exit or spawn failure) or an exception while listing the
workspace jumps straight to the catch block, which only sends the 500
response: no cleanup is scheduled on those paths (`cleanupDelayMs = none`),
while the success path does schedule it with delay 5000 ms. -/
theorem c2_failure_paths_skip_cleanup :
    (handle (some "a,b\n1,2\n3,4\n") (some "plt.plot(data)") 1700000000000 "k3j9f2h1q"
        ⟨true, none, none, none,
         Except.error "Command failed: python3 script.py", Except.ok [],
         fun _ => Except.error "unused"⟩).cleanupDelayMs = none ∧
    (handle (some "a,b\n1,2\n3,4\n") (some "plt.plot(data)") 1700000000000 "k3j9f2h1q"
        ⟨true, none, none, none,
         Except.error "Command failed: python3 script.py", Except.ok [],
         fun _ => Except.error "unused"⟩).response
      = catchResponse "Command failed: python3 script.py" ∧
    (handle (some "a,b\n1,2\n3,4\n") (some "plt.plot(data)") 1700000000000 "k3j9f2h1q"
        ⟨true, none, none, none, Except.ok ("Generated 1 charts\n", ""),
         Except.error "EMFILE: too many open files",
         fun _ => Except.error "unused"⟩).cleanupDelayMs = none ∧
    (handle (some "a,b\n1,2\n3,4\n") (some "plt.plot(data)") 1700000000000 "k3j9f2h1q"
        ⟨true, none, none, none, Except.ok ("Generated 1 charts\n", ""),
         Except.ok ["chart_0.png", "data.csv", "script.py"],
         fun _ => Except.ok [137, 80, 78, 71]⟩).cleanupDelayMs = some 5000 := by
  refine ⟨rfl, rfl, rfl, ?_⟩
  rfl

/-- Claim C3: the claim requires every interpreter execution to be bounded by
a wall-clock timeout that kills the child process tree and reports a Timeout
failure.  The handler invokes `execAsync` with the command string only
(source line 847), passing no timeout option, so Node's default `timeout: 0`
applies; under that configuration a child that never terminates is never
killed by elapsed time, the awaited call never settles, and no kill instant
exists for any child whatsoever. -/
theorem c3_no_timeout_no_kill :
    execSettlesAt execCallTimeoutMs none = none ∧
    execKillsChildAt execCallTimeoutMs none = none ∧
    ∀ childEndsAt, execKillsChildAt execCallTimeoutMs childEndsAt = none := by
  refine ⟨rfl, rfl, fun childEndsAt => rfl⟩

/-- Claim C5: when the interpreter exits with code zero (the `execAsync`
promise resolves) and standard error contains the substring `Warning`, the
stderr check of source line 849 does not fire, so the run is never flipped
to the failure path by such benign-warning output. -/
theorem c5_warning_stderr_not_flagged (csvData pythonCode : Option String)
    (t : Nat) (r : String) (env : Env) (stdout stderr : String)
    (hexec : env.exec = Except.ok (stdout, stderr))
    (hw : strIncludes "Warning" stderr = true) :
    (handle csvData pythonCode t r env).stderrFlagged = false := by
  have hsf : stderrFails stderr = false := by
    unfold stderrFails
    rw [hw]
    simp
  obtain ⟨te, mj, wc, ws, ex, rd, rfn⟩ := env
  change ex = Except.ok (stdout, stderr) at hexec
  subst hexec
  by_cases hb : (falsy csvData || falsy pythonCode) = true
  · unfold handle
    rw [if_pos hb]
  · unfold handle
    rw [if_neg hb]
    cases mj with
    | some e => rfl
    | none =>
      cases wc with
      | some e => rfl
      | none =>
        cases ws with
        | some e => rfl
        | none =>
          simp only [hsf, Bool.false_eq_true, if_false]
          cases rd with
          | error e => rfl
          | ok listing =>
            cases hra : readAll rfn (collectChartFiles listing) with
            | error e => simp only [hra]
            | ok imgs => simp only [hra]

/-- Witness for C5 at a concrete run: zero exit with a deprecation warning on
standard error (containing `Warning`) leaves the stderr check untriggered. -/
theorem c5_witness :
    (⟨true, none, none, none,
        Except.ok ("done", "FutureWarning: use_inf_as_na is deprecated"),
        Except.ok [], fun _ => Except.error "unused"⟩ : Env).exec
      = Except.ok ("done", "FutureWarning: use_inf_as_na is deprecated") ∧
    strIncludes "Warning" "FutureWarning: use_inf_as_na is deprecated" = true ∧
    (handle (some "a,b\n1,2\n") (some "plt.plot(data)") 3 "abc"
        ⟨true, none, none, none,
         Except.ok ("done", "FutureWarning: use_inf_as_na is deprecated"),
         Except.ok [], fun _ => Except.error "unused"⟩).stderrFlagged = false :=
  ⟨rfl, by decide,
   c5_warning_stderr_not_flagged (some "a,b\n1,2\n") (some "plt.plot(data)") 3 "abc"
     ⟨true, none, none, none,
      Except.ok ("done", "FutureWarning: use_inf_as_na is deprecated"),
      Except.ok [], fun _ => Except.error "unused"⟩
     "done" "FutureWarning: use_inf_as_na is deprecated" rfl (by decide)⟩

/-- Claim C4, counterexample: the claim says distinct failure causes yield
distinguishable structured results.  Every exception reaching the catch
block is answered with the same fixed `error` and `suggestion` strings and
only the free-text `details` varies; here a workspace-allocation failure
(`mkdirSync` throwing) and an artifact-collection failure (`readdirSync`
throwing) with the same system message produce literally identical
responses, so the caller cannot tell a WorkspaceError from a collection
failure. -/
theorem c4_uniform_error_counterexample :
    (handle (some "a,b\n1,2\n") (some "plt.plot(data)") 0 "abc"
        ⟨true, some "EACCES: permission denied", none, none,
         Except.ok ("", ""), Except.ok [],
         fun _ => Except.error "unused"⟩).response
      = (handle (some "a,b\n1,2\n") (some "plt.plot(data)") 0 "abc"
          ⟨true, none, none, none, Except.ok ("", ""),
           Except.error "EACCES: permission denied",
           fun _ => Except.error "unused"⟩).response ∧
    (handle (some "a,b\n1,2\n") (some "plt.plot(data)") 0 "abc"
        ⟨true, some "EACCES: permission denied", none, none,
         Except.ok ("", ""), Except.ok [],
         fun _ => Except.error "unused"⟩).response
      = catchResponse "EACCES: permission denied" := by
  exact ⟨rfl, rfl⟩

/-- Claim C4, amended: the only structurally distinguished failure kind is
bad input, which gets its own 400 response before any workspace step; every
other failure — workspace allocation, dataset/script write, spawn, non-zero
exit, artifact listing or read — is reported through the one catch-all 500
shape with fixed `error` and `suggestion` fields, distinguishable only by
the free-text `details`; the remaining shape is the success response. -/
theorem c4_amended_response_shapes (csvData pythonCode : Option String)
    (t : Nat) (r : String) (env : Env) :
    (handle csvData pythonCode t r env).response =
        Response.badRequest "csvData and pythonCode are required" ∨
    (∃ details, (handle csvData pythonCode t r env).response = catchResponse details) ∨
    (∃ imgs stdout, (handle csvData pythonCode t r env).response =
        Response.success imgs imgs.length
          ("Successfully generated " ++ Nat.repr imgs.length ++ " charts") stdout) := by
  obtain ⟨te, mj, wc, ws, ex, rd, rfn⟩ := env
  by_cases hb : (falsy csvData || falsy pythonCode) = true
  · left
    unfold handle
    rw [if_pos hb]
  · right
    unfold handle
    rw [if_neg hb]
    cases mj with
    | some e => exact Or.inl ⟨e, rfl⟩
    | none =>
      cases wc with
      | some e => exact Or.inl ⟨e, rfl⟩
      | none =>
        cases ws with
        | some e => exact Or.inl ⟨e, rfl⟩
        | none =>
          cases ex with
          | error e => exact Or.inl ⟨e, rfl⟩
          | ok pr =>
            obtain ⟨stdout, stderr⟩ := pr
            by_cases hsf : stderrFails stderr = true
            · refine Or.inl ⟨"Python execution failed: " ++ stderr, ?_⟩
              simp [hsf]
            · have hsf' : stderrFails stderr = false := by
                revert hsf
                cases stderrFails stderr <;> simp
              simp only [hsf', Bool.false_eq_true, if_false]
              cases rd with
              | error e => exact Or.inl ⟨e, rfl⟩
              | ok listing =>
                cases hra : readAll rfn (collectChartFiles listing) with
                | error e =>
                  simp only [hra]
                  exact Or.inl ⟨e, rfl⟩
                | ok imgs =>
                  simp only [hra]
                  exact Or.inr ⟨imgs, stdout, rfl⟩

/-- Insertion sort leaves a strictly ascending list unchanged. -/
theorem sortAscOfChain : ∀ (l : List Nat), List.Chain' (· < ·) l → sortAsc l = l := by
  intro l h
  induction l with
  | nil => rfl
  | cons n rest ih =>
    have hrest : List.Chain' (· < ·) rest := h.tail
    simp only [sortAsc]
    rw [ih hrest]
    cases rest with
    | nil => rfl
    | cons m t =>
      have hnm : n < m := (List.chain'_cons.mp h).1
      simp only [insertAsc]
      rw [if_pos (Nat.le_of_lt hnm)]

/-- The save loop appends exactly the `savedSpec` saves of the figure numbers
it walks, numbering from the current `fig_count`. -/
theorem saveLoopSaved : ∀ (ns : List Nat) (s : EpilogueState),
    (saveLoop ns s).saved = s.saved ++ savedSpec s.figCount ns := by
  intro ns
  induction ns with
  | nil =>
    intro s
    simp [saveLoop, savedSpec]
  | cons n rest ih =>
    intro s
    simp only [saveLoop, savedSpec]
    rw [ih]
    simp

/-- After the save loop, the figures that remain open are exactly those whose
number the loop never visited. -/
theorem saveLoopOpen : ∀ (ns : List Nat) (s : EpilogueState),
    (saveLoop ns s).openFigs =
      s.openFigs.filter (fun m => !(ns.any (fun n => m == n))) := by
  intro ns
  induction ns with
  | nil =>
    intro s
    simp [saveLoop]
  | cons n rest ih =>
    intro s
    simp only [saveLoop]
    rw [ih]
    rw [List.filter_filter]
    congr 1
    funext m
    simp [List.any_cons, Bool.not_or, Bool.and_comm]

/-- The filenames of a `savedSpec` block are `chart_k, chart_{k+1}, …`,
contiguous from the starting count. -/
theorem savedSpecSnd : ∀ (ns : List Nat) (k : Nat),
    (savedSpec k ns).map Prod.snd =
      (List.range ns.length).map (fun i => chartName (k + i)) := by
  intro ns
  induction ns with
  | nil =>
    intro k
    simp [savedSpec]
  | cons n rest ih =>
    intro k
    simp only [savedSpec, List.map_cons, List.length_cons]
    rw [List.range_succ_eq_map]
    simp only [List.map_cons, List.map_map]
    rw [ih]
    have harg : ((fun i => chartName (k + i)) ∘ Nat.succ) = fun i => chartName (k + 1 + i) := by
      funext i
      simp only [Function.comp]
      congr 1
      omega
    rw [harg, Nat.add_zero]
    rfl

/-- Claim C6: a request with an absent or empty dataset or code fragment is
answered with the 400 input error before the handler performs any filesystem
step: the outcome carries no filesystem operation at all, and no cleanup
timer (there is nothing to clean). -/
theorem c6_invalid_input_rejected_before_fs (csvData pythonCode : Option String)
    (t : Nat) (r : String) (env : Env)
    (h : (falsy csvData || falsy pythonCode) = true) :
    handle csvData pythonCode t r env =
      ⟨Response.badRequest "csvData and pythonCode are required", [], none, false⟩ := by
  unfold handle
  simp [h]

/-- Witness for C6: an empty `csvData` with a non-empty `pythonCode` is
rejected with the 400 response and an empty filesystem trace. -/
theorem c6_witness :
    (falsy (some "") || falsy (some "print(1)")) = true ∧
    handle (some "") (some "print(1)") 0 "abc"
        ⟨true, none, none, none, Except.ok ("", ""), Except.ok [],
         fun _ => Except.error "unused"⟩ =
      ⟨Response.badRequest "csvData and pythonCode are required", [], none, false⟩ :=
  ⟨by decide,
   c6_invalid_input_rejected_before_fs (some "") (some "print(1)") 0 "abc"
     ⟨true, none, none, none, Except.ok ("", ""), Except.ok [],
      fun _ => Except.error "unused"⟩ (by decide)⟩

/-- Claim C7: a run whose interpreter process resolves with exit code zero,
passes the stderr check, and whose workspace listing contains no chart file
ends as a success response with an empty artifact list and
`chartsGenerated = 0` (and cleanup scheduled), not as an error. -/
theorem c7_zero_artifacts_is_success (cd pc : String)
    (hcd : (cd == "") = false) (hpc : (pc == "") = false)
    (t : Nat) (r : String) (env : Env) (stdout stderr : String)
    (hmk : env.mkdirJob = none) (hwc : env.writeCsv = none)
    (hws : env.writeScript = none)
    (hex : env.exec = Except.ok (stdout, stderr))
    (hsf : stderrFails stderr = false)
    (listing : List String) (hrd : env.readdir = Except.ok listing)
    (hempty : collectChartFiles listing = []) :
    (handle (some cd) (some pc) t r env).response =
      Response.success [] 0 "Successfully generated 0 charts" stdout ∧
    (handle (some cd) (some pc) t r env).cleanupDelayMs = some 5000 := by
  obtain ⟨te, mj, wc, ws, ex, rd, rfn⟩ := env
  change mj = none at hmk
  change wc = none at hwc
  change ws = none at hws
  change ex = Except.ok (stdout, stderr) at hex
  change rd = Except.ok listing at hrd
  subst hmk hwc hws hex hrd
  unfold handle
  simp only [falsy, hcd, hpc, Bool.or_self, Bool.false_eq_true, if_false,
    hsf, hempty, readAll]
  exact ⟨rfl, trivial⟩

/-- Witness for C7: a clean run over a workspace whose listing holds only the
dataset and the script yields the empty-artifact success response. -/
theorem c7_witness :
    ("a,b\n1,2\n" == "") = false ∧
    ("x = 1" == "") = false ∧
    collectChartFiles ["data.csv", "script.py"] = [] ∧
    (handle (some "a,b\n1,2\n") (some "x = 1") 7 "zz9k2q8mh"
        ⟨true, none, none, none, Except.ok ("Generated 0 charts\n", ""),
         Except.ok ["data.csv", "script.py"],
         fun _ => Except.error "unused"⟩).response =
      Response.success [] 0 "Successfully generated 0 charts" "Generated 0 charts\n" :=
  ⟨by decide, by decide, by decide,
   (c7_zero_artifacts_is_success "a,b\n1,2\n" "x = 1" (by decide) (by decide)
     7 "zz9k2q8mh"
     ⟨true, none, none, none, Except.ok ("Generated 0 charts\n", ""),
      Except.ok ["data.csv", "script.py"], fun _ => Except.error "unused"⟩
     "Generated 0 charts\n" "" rfl rfl rfl rfl (by decide)
     ["data.csv", "script.py"] rfl (by decide)).1⟩

/-- Claim C8, counterexample: the claim says the epilogue persists figures in
figure-creation order for every code fragment.  The epilogue iterates
`plt.get_fignums()`, which yields open figure numbers in ascending numeric
order, not creation order.  A fragment that creates figure 3 first and then
figure 1 (`plt.figure(3) … plt.figure(1) …`) leaves creation order `[3, 1]`,
yet the epilogue writes `chart_0.png` from figure 1 (the second-created) and
`chart_1.png` from figure 3 (the first-created) — not the creation-order
assignment. -/
theorem c8_epilogue_not_creation_order :
    (runEpilogue [3, 1]).saved = [(1, "chart_0.png"), (3, "chart_1.png")] ∧
    (runEpilogue [3, 1]).saved ≠ [(3, "chart_0.png"), (1, "chart_1.png")] := by
  exact ⟨by decide, by decide⟩

/-- Claim C8, amended: the epilogue persists the open figures in ascending
figure-number order — which coincides with creation order exactly when
figure numbers are assigned increasingly along creation, as matplotlib's
default auto-numbering does — writing contiguous filenames
`chart_0 … chart_{N-1}` and closing every figure (no figure is left open). -/
theorem c8_amended_ascending_numbers_saved_in_order (figNums : List Nat)
    (h : List.Chain' (· < ·) figNums) :
    (runEpilogue figNums).saved = savedSpec 0 figNums ∧
    (runEpilogue figNums).saved.map Prod.snd =
      (List.range figNums.length).map chartName ∧
    (runEpilogue figNums).openFigs = [] := by
  have hsort : getFignums figNums = figNums := sortAscOfChain figNums h
  unfold runEpilogue
  rw [hsort]
  refine ⟨?_, ?_, ?_⟩
  · rw [saveLoopSaved]
    simp
  · rw [saveLoopSaved]
    simp only [List.nil_append]
    rw [savedSpecSnd]
    simp
  · rw [saveLoopOpen]
    rw [List.filter_eq_nil_iff]
    intro a ha
    have hany : figNums.any (fun n => a == n) = true := by
      rw [List.any_eq_true]
      exact ⟨a, ha, by simp⟩
    simp [hany]

/-- Witness for the amended C8 at the concrete creation order 1, 2, 3
(matplotlib default numbering): saves are `(1, chart_0), (2, chart_1),
(3, chart_2)` and every figure ends closed. -/
theorem c8_amended_witness :
    List.Chain' (· < ·) [1, 2, 3] ∧
    (runEpilogue [1, 2, 3]).saved = savedSpec 0 [1, 2, 3] ∧
    (runEpilogue [1, 2, 3]).openFigs = [] :=
  ⟨by simp [List.chain'_cons],
   (c8_amended_ascending_numbers_saved_in_order [1, 2, 3]
     (by simp [List.chain'_cons])).1,
   (c8_amended_ascending_numbers_saved_in_order [1, 2, 3]
     (by simp [List.chain'_cons])).2.2⟩

/-- Claim C10: removing one request's workspace recursively deletes exactly
the paths at or below `temp/<jobId>`: every such path is gone, while the
shared parent `temp` directory and every path inside any other request's
workspace `temp/<jobId'>` (with a different identifier) survive, and nothing
outside the original filesystem ever appears. -/
theorem c10_cleanup_removes_only_own_jobdir (fsPaths : List (List String))
    (jid jid' : String) (h : jid' ≠ jid) :
    (∀ rest, ("temp" :: jid :: rest) ∉ rmSyncRec fsPaths (jobDirComponents jid)) ∧
    (∀ rest, ("temp" :: jid' :: rest) ∈ rmSyncRec fsPaths (jobDirComponents jid) ↔
      ("temp" :: jid' :: rest) ∈ fsPaths) ∧
    (tempDirComponents ∈ rmSyncRec fsPaths (jobDirComponents jid) ↔
      tempDirComponents ∈ fsPaths) ∧
    (∀ p ∈ rmSyncRec fsPaths (jobDirComponents jid), p ∈ fsPaths) := by
  have hne : (jid == jid') = false := by
    simp [Ne.symm h]
  refine ⟨?_, ?_, ?_, ?_⟩
  · intro rest hmem
    rw [rmSyncRec, List.mem_filter] at hmem
    have : startsList (jobDirComponents jid) ("temp" :: jid :: rest) = true := by
      simp [jobDirComponents, tempDirComponents, startsList]
    rw [this] at hmem
    simp at hmem
  · intro rest
    rw [rmSyncRec, List.mem_filter]
    have : startsList (jobDirComponents jid) ("temp" :: jid' :: rest) = false := by
      simp [jobDirComponents, tempDirComponents, startsList, hne]
    rw [this]
    simp
  · rw [rmSyncRec, List.mem_filter]
    have : startsList (jobDirComponents jid) tempDirComponents = false := by
      simp [jobDirComponents, tempDirComponents, startsList]
    rw [this]
    simp
  · intro p hp
    rw [rmSyncRec, List.mem_filter] at hp
    exact hp.1

/-- Witness for C10 on a concrete filesystem: cleaning job `A` keeps `temp`
and job `B`'s files, and removes `temp/A` and its chart. -/
theorem c10_witness :
    ("B" : String) ≠ "A" ∧
    (∀ rest, ("temp" :: "A" :: rest) ∉
      rmSyncRec [["temp"], ["temp", "A"], ["temp", "A", "chart_0.png"],
        ["temp", "B"], ["temp", "B", "data.csv"]] (jobDirComponents "A")) ∧
    (("temp" :: "B" :: ["data.csv"]) ∈
      rmSyncRec [["temp"], ["temp", "A"], ["temp", "A", "chart_0.png"],
        ["temp", "B"], ["temp", "B", "data.csv"]] (jobDirComponents "A") ↔
      ("temp" :: "B" :: ["data.csv"]) ∈
        [["temp"], ["temp", "A"], ["temp", "A", "chart_0.png"],
         ["temp", "B"], ["temp", "B", "data.csv"]]) :=
  ⟨by decide,
   (c10_cleanup_removes_only_own_jobdir
     [["temp"], ["temp", "A"], ["temp", "A", "chart_0.png"],
      ["temp", "B"], ["temp", "B", "data.csv"]] "A" "B" (by decide)).1,
   (c10_cleanup_removes_only_own_jobdir
     [["temp"], ["temp", "A"], ["temp", "A", "chart_0.png"],
      ["temp", "B"], ["temp", "B", "data.csv"]] "A" "B" (by decide)).2.1 ["data.csv"]⟩

/-- A decimal digit character evaluates back to its digit value. -/
theorem digitCharVal (m : Nat) (h : m < 10) : (Nat.digitChar m).toNat - 48 = m := by
  interval_cases m <;> decide

/-- A decimal digit character is never the `_` separator. -/
theorem digitCharNotSep (m : Nat) (h : m < 10) : (Nat.digitChar m == '_') = false := by
  interval_cases m <;> decide

/-- `Nat.toDigitsCore` only prepends to its accumulator. -/
theorem toDigitsCoreAcc : ∀ (fuel n : Nat) (acc : List Char),
    Nat.toDigitsCore 10 fuel n acc = Nat.toDigitsCore 10 fuel n [] ++ acc := by
  intro fuel
  induction fuel with
  | zero =>
    intro n acc
    simp [Nat.toDigitsCore]
  | succ f ih =>
    intro n acc
    simp only [Nat.toDigitsCore]
    by_cases h : n / 10 = 0
    · rw [if_pos h, if_pos h]
      rfl
    · rw [if_neg h, if_neg h]
      rw [ih (n / 10) (Nat.digitChar (n % 10) :: acc),
          ih (n / 10) [Nat.digitChar (n % 10)]]
      simp

/-- Appending one digit multiplies the accumulated value by ten. -/
theorem digitsValAppend (xs : List Char) (c : Char) :
    digitsVal (xs ++ [c]) = digitsVal xs * 10 + (c.toNat - 48) := by
  unfold digitsVal
  rw [List.foldl_append]
  rfl

/-- With enough fuel, `Nat.toDigitsCore` renders a numeral that evaluates
back to the number itself. -/
theorem toDigitsCoreVal : ∀ (fuel n : Nat), n < fuel →
    digitsVal (Nat.toDigitsCore 10 fuel n []) = n := by
  intro fuel
  induction fuel with
  | zero =>
    intro n h
    exact absurd h (by omega)
  | succ f ih =>
    intro n h
    simp only [Nat.toDigitsCore]
    by_cases h0 : n / 10 = 0
    · rw [if_pos h0]
      have hn : n < 10 := by omega
      show digitsVal [Nat.digitChar (n % 10)] = n
      unfold digitsVal
      simp only [List.foldl]
      rw [digitCharVal (n % 10) (Nat.mod_lt n (by norm_num))]
      omega
    · rw [if_neg h0]
      rw [toDigitsCoreAcc]
      rw [digitsValAppend]
      rw [ih (n / 10) (by omega)]
      rw [digitCharVal (n % 10) (Nat.mod_lt n (by norm_num))]
      omega

/-- The decimal rendering used inside `jobId` is injective. -/
theorem reprDataInj (a b : Nat) (h : (Nat.repr a).data = (Nat.repr b).data) :
    a = b := by
  have hra : (Nat.repr a).data = Nat.toDigitsCore 10 (a + 1) a [] := rfl
  have hrb : (Nat.repr b).data = Nat.toDigitsCore 10 (b + 1) b [] := rfl
  have hva := toDigitsCoreVal (a + 1) a (by omega)
  have hvb := toDigitsCoreVal (b + 1) b (by omega)
  rw [← hra] at hva
  rw [← hrb] at hvb
  rw [← hva, ← hvb, h]

/-- Every character `Nat.toDigitsCore` emits beyond its accumulator is a
digit, hence never the `_` separator. -/
theorem toDigitsCoreNotSep : ∀ (fuel n : Nat) (acc : List Char),
    (∀ c ∈ acc, (c == '_') = false) →
    ∀ c ∈ Nat.toDigitsCore 10 fuel n acc, (c == '_') = false := by
  intro fuel
  induction fuel with
  | zero =>
    intro n acc hacc
    simpa [Nat.toDigitsCore] using hacc
  | succ f ih =>
    intro n acc hacc c hc
    simp only [Nat.toDigitsCore] at hc
    by_cases h0 : n / 10 = 0
    · rw [if_pos h0] at hc
      rcases List.mem_cons.mp hc with h | h
      · rw [h]
        exact digitCharNotSep (n % 10) (Nat.mod_lt n (by norm_num))
      · exact hacc c h
    · rw [if_neg h0] at hc
      refine ih (n / 10) (Nat.digitChar (n % 10) :: acc) ?_ c hc
      intro d hd
      rcases List.mem_cons.mp hd with h | h
      · rw [h]
        exact digitCharNotSep (n % 10) (Nat.mod_lt n (by norm_num))
      · exact hacc d h

/-- The decimal rendering of a timestamp contains no `_`. -/
theorem reprNotSep (n : Nat) : ∀ c ∈ (Nat.repr n).data, (c == '_') = false := by
  intro c hc
  have hr : (Nat.repr n).data = Nat.toDigitsCore 10 (n + 1) n [] := rfl
  rw [hr] at hc
  exact toDigitsCoreNotSep (n + 1) n [] (by intro d hd; cases hd) c hc

/-- Splitting at a separator character absent from both left parts is
unambiguous. -/
theorem sepListInj : ∀ (as bs cs ds : List Char),
    (∀ c ∈ as, (c == '_') = false) → (∀ c ∈ bs, (c == '_') = false) →
    as ++ '_' :: cs = bs ++ '_' :: ds → as = bs ∧ cs = ds := by
  intro as
  induction as with
  | nil =>
    intro bs cs ds _ hb h
    cases bs with
    | nil => simpa using h
    | cons b bs' =>
      simp only [List.nil_append, List.cons_append] at h
      injection h with h1 h2
      have hbF := hb b (by simp)
      rw [← h1] at hbF
      simp at hbF
  | cons a as' ih =>
    intro bs cs ds ha hb h
    cases bs with
    | nil =>
      simp only [List.nil_append, List.cons_append] at h
      injection h with h1 h2
      have haF := ha a (by simp)
      rw [h1] at haF
      simp at haF
    | cons b bs' =>
      simp only [List.cons_append] at h
      injection h with h1 h2
      obtain ⟨e1, e2⟩ := ih bs' cs ds
        (fun c hc => ha c (by simp [hc])) (fun c hc => hb c (by simp [hc])) h2
      exact ⟨by rw [h1, e1], e2⟩

/-- Claim C9, counterexample: the claim says any two allocation calls receive
distinct identifiers.  The identifier is a pure function of the observed
millisecond timestamp and the drawn random suffix, with no uniqueness check,
counter, or retry: two calls that happen in the same millisecond and draw the
same nine-character suffix — possible, since `Math.random` has finitely many
outcomes — receive the identical identifier and hence the identical workspace
path. -/
theorem c9_same_observations_same_id :
    jobId 1700000000000 "x7q4p9k2m" = jobId 1700000000000 "x7q4p9k2m" ∧
    jobDirComponents (jobId 1700000000000 "x7q4p9k2m") =
      jobDirComponents (jobId 1700000000000 "x7q4p9k2m") :=
  ⟨rfl, rfl⟩

/-- Claim C9, amended: identifiers are distinct exactly as far as the
observations differ — two allocation calls whose (timestamp, random suffix)
observations are not equal always receive distinct identifiers (the decimal
timestamp rendering and the base-36 suffix are both `_`-free, so the
`job_<time>_<suffix>` concatenation is unambiguous); uniqueness therefore
rests entirely on the timestamp/suffix pair, not on any enforced check. -/
theorem c9_amended_distinct_observations_distinct_ids (t₁ t₂ : Nat)
    (r₁ r₂ : String)
    (h1 : noUnderscore r₁ = true) (h2 : noUnderscore r₂ = true)
    (hne : (t₁, r₁) ≠ (t₂, r₂)) :
    jobId t₁ r₁ ≠ jobId t₂ r₂ := by
  intro h
  apply hne
  have hd : (jobId t₁ r₁).data = (jobId t₂ r₂).data := by rw [h]
  have hexp : ∀ (t : Nat) (r : String),
      (jobId t r).data =
        'j' :: 'o' :: 'b' :: '_' :: ((Nat.repr t).data ++ '_' :: r.data) := by
    intro t r
    show ("job_" ++ Nat.repr t ++ "_" ++ r).data = _
    rw [String.data_append, String.data_append, String.data_append]
    simp
  rw [hexp, hexp] at hd
  injection hd with _ hd
  injection hd with _ hd
  injection hd with _ hd
  injection hd with _ hd
  obtain ⟨e1, e2⟩ := sepListInj (Nat.repr t₁).data (Nat.repr t₂).data
    r₁.data r₂.data (reprNotSep t₁) (reprNotSep t₂) hd
  have ht : t₁ = t₂ := reprDataInj t₁ t₂ e1
  have hr : r₁ = r₂ := by
    cases r₁
    cases r₂
    exact congrArg String.mk e2
  rw [ht, hr]

/-- Witness for the amended C9: calls one millisecond apart with the same
suffix, and calls in the same millisecond with different suffixes, both
receive distinct identifiers. -/
theorem c9_amended_witness :
    noUnderscore "a1b2c3d4e" = true ∧
    ((1700000000000, "a1b2c3d4e") : Nat × String) ≠ (1700000000001, "a1b2c3d4e") ∧
    jobId 1700000000000 "a1b2c3d4e" ≠ jobId 1700000000001 "a1b2c3d4e" :=
  ⟨by decide, by decide,
   c9_amended_distinct_observations_distinct_ids 1700000000000 1700000000001
     "a1b2c3d4e" "a1b2c3d4e" (by decide) (by decide) (by decide)⟩
